import Mathlib

/-!
Shallow embedding of the CLI-nvaders game core (src/src/game.rs,
src/src/game/entities.rs) and proofs about it.

Rust strings are modelled as lists of characters; where the source
manipulates UTF-8 byte offsets (`str::split_at`, `String::replace_range`)
the byte structure is recovered through `Char.utf8Size`.  `u16`/`u8`/`usize`
values are modelled as `Nat` (no arithmetic in the modelled code wraps in
the scenarios the claims quantify over; where a bound matters it is stated
explicitly).  Rust panics and divergence are modelled as `none`/`Except.error`.
The random number generator is modelled as an oracle stream of naturals,
with `gen_range(lo..hi)` drawing `lo + stream i % (hi - lo)`.
`f32` arithmetic of the frame scheduler is modelled by exact rationals.
-/

namespace CLInvaders

/-- Terminal dimensions as returned by the `termsize` query (struct `Size`). -/
structure Size where
  rows : Nat
  cols : Nat
deriving DecidableEq, Repr

/-- entities.rs: `Player { pos: u16 }`. -/
structure Player where
  pos : Nat
deriving DecidableEq, Repr

/-- entities.rs: `FallingStar { pos: u16, col: u16, entity: char }`. -/
structure FallingStar where
  pos : Nat
  col : Nat
  entity : Char
deriving DecidableEq, Repr

/-- entities.rs: `Projectile {}` (placeholder record). -/
structure Projectile where
deriving DecidableEq, Repr

/-- entities.rs: `Alien {}` (placeholder record). -/
structure Alien where
deriving DecidableEq, Repr

/-- game.rs: `GameState` aggregate. -/
structure GameState where
  size : Size
  enemies : List Alien
  projectiles : List Projectile
  falling_stars : List FallingStar
  player : Player
deriving DecidableEq, Repr

/-- game.rs: `GameState::new()` — zeroed dimensions, empty collections,
player at position 0. -/
def GameState.new : GameState :=
  { size := ⟨0, 0⟩
    enemies := []
    projectiles := []
    falling_stars := []
    player := ⟨0⟩ }

/-- The tick-scoped error kinds.  The source uses distinct constant
`String` messages; they are modelled by this enumeration: `tooSmall`
stands for the string `Invalid terminal size`, `queryFailed` for
`Failed to compute terminal size`, and `screenClearFailed` for the error
`game_loop` builds when `clearscreen::clear()` fails. -/
inductive EvalError where
  | tooSmall
  | queryFailed
  | screenClearFailed
deriving DecidableEq, Repr

/-- game.rs lines 40-56: `GameState::evaluate_state`.  The external
`termsize::get()` outcome is passed in as `q : Option Size`.  Note the
source assigns `self.size = size` *before* the smallness check, so the
stored dimensions are refreshed even on the `tooSmall` error path. -/
def GameState.evaluate_state (s : GameState) (q : Option Size) :
    Except EvalError Unit × GameState :=
  match q with
  | some size =>
      let s' := { s with size := size }
      if s'.size.cols < 8 ∨ s'.size.rows < 8 then
        (Except.error EvalError.tooSmall, s')
      else
        (Except.ok (), s')
  | none => (Except.error EvalError.queryFailed, s)

/-- game.rs lines 216-227: `right_pad`.  Character count is measured with
`chars().count()`, but over-length truncation uses `split_at(length)`, a
*byte*-indexed split that panics when `length` is not a character boundary.
`none` models that panic. -/
def splitAtByte : List Char → Nat → Option (List Char)
  | _, 0 => some []
  | [], _ + 1 => none
  | c :: cs, n + 1 =>
      if c.utf8Size ≤ n + 1 then
        (splitAtByte cs (n + 1 - c.utf8Size)).map (c :: ·)
      else
        none

/-- game.rs lines 216-227: `right_pad(string_content, length)`. -/
def right_pad (string_content : List Char) (length : Nat) :
    Option (List Char) :=
  let char_count := string_content.length
  if char_count = length then
    some string_content
  else if char_count > length then
    splitAtByte string_content length
  else
    some (string_content ++ List.replicate (length - char_count) ' ')

/-- game.rs lines 232-245: `left_pad(start_index, string_content, length)`. -/
def left_pad (start_index : Nat) (string_content : List Char)
    (length : Nat) : List Char :=
  if start_index ≥ length then
    List.replicate length ' '
  else
    let line : List Char :=
      match start_index with
      | 0 => []
      | _ => List.replicate start_index ' '
    line ++ string_content

/-- game.rs lines 93-103: one draw of `rng.gen_range(1..cols)`, the rng
modelled as an oracle stream; the draw lands in `[1, cols)` whenever
`cols > 1` (for `cols ≤ 1` the Rust call would panic, outside the
claims' range). -/
def genRangeDraw (stream : Nat → Nat) (i : Nat) (cols : Nat) : Nat :=
  1 + stream i % (cols - 1)

/-- game.rs lines 94-103: the startup spawn loop.  `while len < 4`: draw a
column; the inner `for star { if star.col == col { continue; } }` only
skips to the next star of the inner loop, so it never rejects the
candidate; then push `FallingStar { pos: 0, col }`.  The source omits the
`entity` field of the record (a Rust compile error as given); the glyph is
irrelevant to the spawn claims and is modelled as the star glyph. -/
def spawnStars (stream : Nat → Nat) (cols : Nat) : List FallingStar :=
  (List.range 4).map fun i => ⟨0, genRangeDraw stream i cols, '*'⟩

/-- game.rs lines 82-85: `target_frame_time` from the configured frame
rate (a `u8` option; `None` or `0` means the `1/255` ceiling).  `f32`
division is modelled exactly over `ℚ`. -/
def targetFrameTime (frame_rate : Option Nat) : ℚ :=
  match frame_rate with
  | some rate => if rate > 0 then 1 / (rate : ℚ) else 1 / 255
  | none => 1 / 255

/-- game.rs lines 111-114: the head of the scheduler loop.  When the
accumulator `frame_time` has reached the target the tick fires: the
measured frame rate is `(1 / frame_time).round() as u16` (Rust `as u16`
saturates at 65535; `round` on a nonnegative value agrees with Mathlib's
`round`) and the accumulator is reset to zero.  `none` means the tick did
not fire. -/
def schedulerTick (frame_time target_frame_time : ℚ) : Option (Nat × ℚ) :=
  if frame_time ≥ target_frame_time then
    some (min (round (1 / frame_time)).toNat 65535, 0)
  else
    none

/-- game.rs lines 202-211: `replace_at(content, character, index)` —
replace the character at character-index `index`; `nth(index).unwrap()`
panics (`none`) when the index is out of range. -/
def replace_at (content : List Char) (character : Char) (index : Nat) :
    Option (List Char) :=
  if index < content.length then
    some (content.set index character)
  else
    none

/-- game.rs lines 175-187: the per-row scan over `falling_stars`.  The
body starts with `*star_indicies.last_mut().unwrap() += 1`, which panics
(`none`) whenever `star_indicies` is empty — in particular on the very
first star of a non-empty list.  Returns the accumulated index list and
`start_at_col`. -/
def bumpLast : List Nat → Option (List Nat)
  | [] => none
  | [x] => some [x + 1]
  | x :: y :: xs => (bumpLast (y :: xs)).map (x :: ·)

/-- The loop body of the star scan, one star at a time (game.rs 175-187). -/
def rowScanGo (current_row : Nat) :
    List FallingStar → List Nat → Option Nat → Option (List Nat × Option Nat)
  | [], inds, sc => some (inds, sc)
  | star :: rest, inds, sc =>
      match bumpLast inds with
      | none => none
      | some inds' =>
          if star.pos ≠ current_row then
            rowScanGo current_row rest inds' sc
          else
            let sc' :=
              match sc with
              | none => some (star.col - 1)
              | some v => if star.col - 1 < v then some (star.col - 1) else sc
            match inds'.getLast? with
            | none => none
            | some l => rowScanGo current_row rest (inds' ++ [l]) sc'

/-- game.rs 172-187: the full scan for one row, starting from the empty
index vector and `start_at_col = None`. -/
def rowScan (stars : List FallingStar) (current_row : Nat) :
    Option (List Nat × Option Nat) :=
  rowScanGo current_row stars [] none

/-- A full-width background line: `"=".repeat(state.size.rows)` (the
source repeats to the *row* count; game.rs 164 and 189). -/
def eqLine (rows : Nat) : List Char :=
  List.replicate rows '='

/-- game.rs 170-199: the `while current_row < rows` loop, with explicit
fuel (structural recursion; `renderRows` below supplies enough fuel for
every terminating run).  When the scan panics the run is `none`.  When
`start_at_col` is `Some`, the source overlays glyphs into `message` but
then reaches the end of the loop body without printing or incrementing
`current_row`, re-running the identical iteration forever; that
divergence is also modelled as `none`. -/
def renderRowsFuel (stars : List FallingStar) (rows : Nat) :
    Nat → Nat → Option (List (List Char))
  | fuel, current_row =>
      if rows ≤ current_row then
        some []
      else
        match fuel with
        | 0 => none
        | fuel + 1 =>
            match rowScan stars current_row with
            | none => none
            | some (_, none) =>
                (renderRowsFuel stars rows fuel (current_row + 1)).map
                  (eqLine rows :: ·)
            | some (_, some _) => none

/-- The row loop from its entry point (game.rs 170). -/
def renderRows (stars : List FallingStar) (rows start_at_row : Nat) :
    Option (List (List Char)) :=
  renderRowsFuel stars rows (rows - start_at_row) start_at_row

/-- game.rs lines 156-200: `render(frame_rate, state)`.  The returned
list holds the lines printed, in order: a blank line, the framerate
status line right-padded to the *row* count, an `=` separator when
`rows > 10`, then the playfield rows.  `none` models a panic or the
row-loop divergence. -/
def render (frame_rate : Nat) (state : GameState) :
    Option (List (List Char)) :=
  let status := ("Framerate: ".toList ++ (toString frame_rate).toList)
  match right_pad status state.size.rows with
  | none => none
  | some message =>
      let start_at_row := if state.size.rows > 10 then 2 else 1
      let header :=
        if state.size.rows > 10 then
          [[], message, eqLine state.size.rows]
        else
          [[], message]
      match renderRows state.falling_stars state.size.rows start_at_row with
      | none => none
      | some body => some (header ++ body)

/-- game.rs lines 141-154: `game_loop` — clear the screen (outcome passed
in as `clear_ok`; a failed clear returns its own error and leaves the
state untouched), then `evaluate_state`. -/
def game_loop (state : GameState) (clear_ok : Bool) (q : Option Size) :
    Except EvalError Unit × GameState :=
  if clear_ok then
    GameState.evaluate_state state q
  else
    (Except.error EvalError.screenClearFailed, state)

/-- One scheduler tick's effect on the game state (game.rs 117-127): run
`game_loop`; rendering does not mutate state, and on error the state
resulting from `game_loop` is kept. -/
def tick (state : GameState) (clear_ok : Bool) (q : Option Size) :
    GameState :=
  (game_loop state clear_ok q).2

/-- Fold a sequence of tick events (screen-clear outcome and terminal
query outcome per tick) over a state. -/
def runTicks (state : GameState) (evs : List (Bool × Option Size)) :
    GameState :=
  evs.foldl (fun st e => tick st e.1 e.2) state

/-- game.rs lines 87-106: the startup sequence of `start` — create the
state, run `evaluate_state` (its failure panics via `.expect`, modelled
as `none`), spawn the falling stars, then set the player position to
`state.size.rows >> 1`. -/
def startup (q0 : Option Size) (stream : Nat → Nat) : Option GameState :=
  match GameState.evaluate_state GameState.new q0 with
  | (Except.error _, _) => none
  | (Except.ok _, s1) =>
      some { s1 with
              falling_stars := spawnStars stream s1.size.cols
              player := ⟨s1.size.rows >>> 1⟩ }

/-! ## Theorems for the claims -/

instance : DecidableEq (Except EvalError Unit)
  | Except.ok (), Except.ok () => isTrue rfl
  | Except.ok (), Except.error _ => isFalse (by intro h; cases h)
  | Except.error _, Except.ok () => isFalse (by intro h; cases h)
  | Except.error e, Except.error f =>
      if h : e = f then isTrue (by rw [h])
      else isFalse (by intro hh; cases hh; exact h rfl)

/-- Unfolding `evaluate_state` on a successful query: the dimensions are
stored unconditionally, and the result is the too-small error exactly
under the smallness test. -/
lemma evaluate_state_some (s : GameState) (sz : Size) :
    GameState.evaluate_state s (some sz) =
      (if sz.cols < 8 ∨ sz.rows < 8 then
          Except.error EvalError.tooSmall
        else Except.ok (),
       { s with size := sz }) := by
  simp only [GameState.evaluate_state]
  split <;> rfl

/-- Unfolding `evaluate_state` on a failed query. -/
lemma evaluate_state_none (s : GameState) :
    GameState.evaluate_state s none =
      (Except.error EvalError.queryFailed, s) := rfl

/-- C1: `evaluate_state` returns the too-small error exactly when the
query yields dimensions with `rows < 8` or `cols < 8`, returns the
query-failed error exactly when the query yields nothing, and otherwise
stores the queried dimensions and succeeds. -/
theorem evaluate_state_classification (s : GameState) (q : Option Size) :
    ((GameState.evaluate_state s q).1 = Except.error EvalError.tooSmall ↔
      ∃ sz, q = some sz ∧ (sz.rows < 8 ∨ sz.cols < 8)) ∧
    ((GameState.evaluate_state s q).1 = Except.error EvalError.queryFailed ↔
      q = none) ∧
    (∀ sz, q = some sz → 8 ≤ sz.rows → 8 ≤ sz.cols →
      (GameState.evaluate_state s q).1 = Except.ok () ∧
      (GameState.evaluate_state s q).2.size = sz) := by
  match q with
  | none =>
      rw [evaluate_state_none]
      refine ⟨⟨fun h => ?_, fun h => ?_⟩, ⟨fun _ => rfl, fun _ => rfl⟩,
              fun sz hsz _ _ => ?_⟩
      · cases h
      · obtain ⟨sz, hsz, -⟩ := h
        cases hsz
      · cases hsz
  | some sz =>
      rw [evaluate_state_some]
      by_cases hlt : sz.cols < 8 ∨ sz.rows < 8
      · rw [if_pos hlt]
        refine ⟨⟨fun _ => ⟨sz, rfl, hlt.symm⟩, fun _ => rfl⟩,
                ⟨fun h => ?_, fun h => ?_⟩,
                fun sz' hsz' hr hc => ?_⟩
        · cases h
        · cases h
        · obtain rfl : sz = sz' := by cases hsz'; rfl
          exact absurd hlt (by omega)
      · rw [if_neg hlt]
        refine ⟨⟨fun h => ?_, fun h => ?_⟩,
                ⟨fun h => ?_, fun h => ?_⟩,
                fun sz' hsz' hr hc => ⟨rfl, ?_⟩⟩
        · cases h
        · obtain ⟨sz', hsz', hlt'⟩ := h
          obtain rfl : sz = sz' := by cases hsz'; rfl
          exact absurd hlt'.symm hlt
        · cases h
        · cases h
        · obtain rfl : sz = sz' := by cases hsz'; rfl
          rfl

/-- Witness for C1 at the claim's own example sizes. -/
theorem evaluate_state_classification_witness :
    (GameState.evaluate_state GameState.new (some ⟨7, 100⟩)).1 =
      Except.error EvalError.tooSmall ∧
    (GameState.evaluate_state GameState.new none).1 =
      Except.error EvalError.queryFailed ∧
    (GameState.evaluate_state GameState.new (some ⟨8, 8⟩)).1 =
      Except.ok () :=
  ⟨(evaluate_state_classification GameState.new (some ⟨7, 100⟩)).1.mpr
      ⟨⟨7, 100⟩, rfl, Or.inl (by decide)⟩,
   (evaluate_state_classification GameState.new none).2.1.mpr rfl,
   ((evaluate_state_classification GameState.new (some ⟨8, 8⟩)).2.2
      ⟨8, 8⟩ rfl (by decide) (by decide)).1⟩

/-- A concrete pre-state for the C2 counterexample: stored dimensions
`{rows 20, cols 20}`. -/
def c2State : GameState :=
  { size := ⟨20, 20⟩
    enemies := []
    projectiles := []
    falling_stars := []
    player := ⟨3⟩ }

/-- C2 counterexample: on the too-small error path the state is *not*
left unchanged — querying `{rows 7, cols 100}` from a state holding
`{rows 20, cols 20}` returns an error yet mutates the stored
dimensions. -/
theorem evaluate_state_error_mutates :
    (GameState.evaluate_state c2State (some ⟨7, 100⟩)).1 =
      Except.error EvalError.tooSmall ∧
    (GameState.evaluate_state c2State (some ⟨7, 100⟩)).2 ≠ c2State := by
  decide

/-- C2 amended: when `evaluate_state` returns an error it leaves every
entity field unchanged; the state is fully unchanged on the query-failed
path, while on the too-small path the stored dimensions are refreshed to
the queried values. -/
theorem evaluate_state_error_effects (s : GameState) (q : Option Size)
    (_herr : (GameState.evaluate_state s q).1 ≠ Except.ok ()) :
    ((GameState.evaluate_state s q).2.enemies = s.enemies ∧
     (GameState.evaluate_state s q).2.projectiles = s.projectiles ∧
     (GameState.evaluate_state s q).2.falling_stars = s.falling_stars ∧
     (GameState.evaluate_state s q).2.player = s.player) ∧
    (q = none → (GameState.evaluate_state s q).2 = s) ∧
    (∀ sz, q = some sz → (GameState.evaluate_state s q).2.size = sz) := by
  match q with
  | none =>
      rw [evaluate_state_none]
      exact ⟨⟨rfl, rfl, rfl, rfl⟩, fun _ => rfl, fun sz h => by cases h⟩
  | some sz =>
      rw [evaluate_state_some]
      refine ⟨⟨rfl, rfl, rfl, rfl⟩, fun h => ?_, fun sz' h => ?_⟩
      · cases h
      · obtain rfl : sz = sz' := by cases h; rfl
        rfl

/-- Witness for C2's amended theorem, at the counterexample input. -/
theorem evaluate_state_error_effects_witness :
    (GameState.evaluate_state c2State (some ⟨7, 100⟩)).2.player =
      c2State.player ∧
    (GameState.evaluate_state c2State (some ⟨7, 100⟩)).2.size = ⟨7, 100⟩ :=
  ⟨(evaluate_state_error_effects c2State (some ⟨7, 100⟩)
      (by decide)).1.2.2.2,
   (evaluate_state_error_effects c2State (some ⟨7, 100⟩)
      (by decide)).2.2 ⟨7, 100⟩ rfl⟩

/-- C10: `evaluate_state` never touches the entity fields — enemies,
projectiles, falling stars and player are preserved on every path,
success or error; only the stored dimensions may change. -/
theorem evaluate_state_preserves_entities (s : GameState) (q : Option Size) :
    (GameState.evaluate_state s q).2.enemies = s.enemies ∧
    (GameState.evaluate_state s q).2.projectiles = s.projectiles ∧
    (GameState.evaluate_state s q).2.falling_stars = s.falling_stars ∧
    (GameState.evaluate_state s q).2.player = s.player := by
  match q with
  | none => exact ⟨rfl, rfl, rfl, rfl⟩
  | some sz =>
      rw [evaluate_state_some]
      exact ⟨rfl, rfl, rfl, rfl⟩

/-- C7: `left_pad k s n` yields `n` spaces when `k ≥ n`, and `k` spaces
followed by `s` unchanged when `k < n`. -/
theorem left_pad_spec (k : Nat) (s : List Char) (n : Nat) :
    (k ≥ n → left_pad k s n = List.replicate n ' ') ∧
    (k < n → left_pad k s n = List.replicate k ' ' ++ s) := by
  constructor
  · intro h
    simp [left_pad, h]
  · intro h
    simp only [left_pad, ge_iff_le, if_neg (by omega : ¬ n ≤ k)]
    match k with
    | 0 => simp
    | _ + 1 => rfl

/-- Witness for C7 in both regimes. -/
theorem left_pad_spec_witness :
    left_pad 5 "ab".toList 3 = List.replicate 3 ' ' ∧
    left_pad 2 "ab".toList 5 = List.replicate 2 ' ' ++ "ab".toList :=
  ⟨(left_pad_spec 5 "ab".toList 3).1 (by decide),
   (left_pad_spec 2 "ab".toList 5).2 (by decide)⟩

/-- C3: rendering the claimed state does not produce the described row 3
line — the row loop panics before emitting any playfield row.  On the
state with dimensions `{rows 12, cols 40}` and one falling star at
`{row 3, col 5, glyph *}`, the first row scan executes
`*star_indicies.last_mut().unwrap() += 1` on the still-empty index
vector and dies; `render` therefore yields no output (`none`) instead of
the 12-character `=` line with `*` at offset 4.  (Even with the index
bookkeeping repaired, line 197 overlays the glyph at `star.col`, i.e.
offset 5, not the converted offset 4 that `start_at_col` computes.) -/
theorem render_single_star_panics :
    render 8 ⟨⟨12, 40⟩, [], [], [⟨3, 5, '*'⟩], ⟨6⟩⟩ = none ∧
    rowScan [⟨3, 5, '*'⟩] 2 = none := by decide

/-- C4: the spawn loop's duplicate-column check is ineffective.  With an
rng whose draws all land on column 1 and `cols = 40 ≥ 8`, the loop does
terminate with 4 stars in `[1, cols)` but their columns are `[1,1,1,1]`,
not pairwise distinct. -/
theorem spawnStars_duplicate_columns :
    (spawnStars (fun _ => 0) 40).length = 4 ∧
    (spawnStars (fun _ => 0) 40).map (·.col) = [1, 1, 1, 1] ∧
    (∀ c ∈ (spawnStars (fun _ => 0) 40).map (·.col), 1 ≤ c ∧ c < 40) ∧
    ¬ ((spawnStars (fun _ => 0) 40).map (·.col)).Nodup := by decide

/-- C5: `right_pad` truncates at a byte offset, not a character count.
For the 3-character string `éab` and length 2 it returns the
1-character string `é` (byte prefix of length 2) instead of the first 2
characters `éa`; for `éa` and length 1 the byte offset falls inside the
2-byte character `é` and the source's `split_at` panics (`none`). -/
theorem right_pad_byte_truncation :
    right_pad "éab".toList 2 = some ['é'] ∧
    "éab".toList.take 2 = ['é', 'a'] ∧
    (some ['é'] : Option (List Char)) ≠ some ("éab".toList.take 2) ∧
    right_pad "éa".toList 1 = none := by decide

/-- C8: `right_pad` is not idempotent.  `right_pad ééx 2` byte-truncates
to the single character `é`; padding that result to 2 again appends a
space, so the two sides differ. -/
theorem right_pad_not_idempotent :
    right_pad "ééx".toList 2 = some ['é'] ∧
    right_pad ['é'] 2 = some ['é', ' '] ∧
    (right_pad "ééx".toList 2).bind (fun r => right_pad r 2) ≠
      right_pad "ééx".toList 2 := by decide

/-- The configured target frame time is never below the `1/255` ceiling
(the frame rate is a `u8`, so at most 255). -/
lemma targetFrameTime_lb (frame_rate : Option Nat)
    (hr : ∀ r, frame_rate = some r → r ≤ 255) :
    1 / 255 ≤ targetFrameTime frame_rate := by
  match frame_rate with
  | none => exact le_refl _
  | some r =>
      have hr' : r ≤ 255 := hr r rfl
      by_cases h : r > 0
      · simp only [targetFrameTime, if_pos h]
        apply one_div_le_one_div_of_le
        · exact_mod_cast h
        · exact_mod_cast hr'
      · simp only [targetFrameTime, if_neg h]
        exact le_refl _

/-- C6: against any `u8`-configurable target frame time, the tick fires
exactly when the accumulator has reached or exceeded the target, and a
firing tick reports `round (1 / accumulator)` as the measured frame rate
(the `as u16` saturation never bites, since a fired accumulator is at
least `1/255`) and resets the accumulator to zero. -/
theorem schedulerTick_spec (frame_time : ℚ) (frame_rate : Option Nat)
    (hr : ∀ r, frame_rate = some r → r ≤ 255) :
    ((schedulerTick frame_time (targetFrameTime frame_rate)).isSome ↔
      targetFrameTime frame_rate ≤ frame_time) ∧
    (targetFrameTime frame_rate ≤ frame_time →
      schedulerTick frame_time (targetFrameTime frame_rate) =
        some ((round (1 / frame_time)).toNat, 0) ∧
      ((round (1 / frame_time)).toNat : ℤ) = round (1 / frame_time)) := by
  have hlb := targetFrameTime_lb frame_rate hr
  constructor
  · by_cases hge : targetFrameTime frame_rate ≤ frame_time
    · simp [schedulerTick, hge]
    · simp [schedulerTick, hge]
  · intro hge
    have hft : (1 : ℚ) / 255 ≤ frame_time := le_trans hlb hge
    have hpos : 0 < frame_time := lt_of_lt_of_le (by norm_num) hft
    have hub : 1 / frame_time ≤ 255 := by
      have h1 : 1 / frame_time ≤ 1 / (1 / 255 : ℚ) :=
        one_div_le_one_div_of_le (by norm_num) hft
      calc 1 / frame_time ≤ 1 / (1 / 255 : ℚ) := h1
        _ = 255 := by norm_num
    have hround_ub : round (1 / frame_time) ≤ 255 := by
      have h1 : ((round (1 / frame_time) : ℤ) : ℚ) ≤ 1 / frame_time + 1 / 2 :=
        round_le_add_half _
      have h2 : ((round (1 / frame_time) : ℤ) : ℚ) < 256 :=
        lt_of_le_of_lt h1 (by linarith)
      have h3 : (round (1 / frame_time) : ℤ) < 256 := by exact_mod_cast h2
      omega
    have hround_nn : 0 ≤ round (1 / frame_time) := by
      rw [round_eq]
      apply Int.le_floor.mpr
      have : 0 < 1 / frame_time := by positivity
      push_cast
      linarith
    refine ⟨?_, Int.toNat_of_nonneg hround_nn⟩
    have htn : (round (1 / frame_time)).toNat ≤ 65535 :=
      Int.toNat_le.mpr (by omega)
    simp only [schedulerTick, ge_iff_le, if_pos hge]
    rw [min_eq_left htn]

/-- Witness for C6 at the claim's own numbers: target `1/8`, accumulator
`0.1` does not fire; accumulator `0.13` fires with measured rate
`round (1/0.13) = 8` and a zeroed accumulator. -/
theorem schedulerTick_spec_witness :
    targetFrameTime (some 8) = 1 / 8 ∧
    schedulerTick (1 / 10) (targetFrameTime (some 8)) = none ∧
    schedulerTick (13 / 100) (targetFrameTime (some 8)) = some (8, 0) := by
  have ht : targetFrameTime (some 8) = 1 / 8 := by
    norm_num [targetFrameTime]
  have hbound : ∀ r, (some 8 : Option Nat) = some r → r ≤ 255 := by
    intro r h
    injection h with h
    omega
  refine ⟨ht, ?_, ?_⟩
  · have hiff := (schedulerTick_spec (1 / 10) (some 8) hbound).1
    have hno : ¬ (schedulerTick (1 / 10) (targetFrameTime (some 8))).isSome := by
      rw [ht] at hiff ⊢
      intro hs
      have := hiff.mp hs
      norm_num at this
    exact Option.not_isSome_iff_eq_none.mp hno
  · have hfire := ((schedulerTick_spec (13 / 100) (some 8) hbound).2
      (by rw [ht]; norm_num)).1
    rw [hfire]
    have hr8 : round ((1 : ℚ) / (13 / 100)) = 8 := by
      have h : (1 : ℚ) / (13 / 100) = 100 / 13 := by norm_num
      rw [h, round_eq]
      rw [show (100 : ℚ) / 13 + 1 / 2 = 213 / 26 by norm_num]
      rw [Int.floor_eq_iff]
      norm_num
    rw [hr8]
    rfl

/-- `evaluate_state` never touches the player (helper shared by the
tick-level lemmas). -/
lemma evaluate_state_player (s : GameState) (q : Option Size) :
    (GameState.evaluate_state s q).2.player = s.player := by
  match q with
  | none => rfl
  | some sz => rw [evaluate_state_some]

/-- A single tick never moves the player: `game_loop` only clears the
screen and re-validates dimensions. -/
lemma tick_player (s : GameState) (b : Bool) (q : Option Size) :
    (tick s b q).player = s.player := by
  cases b
  · rfl
  · exact evaluate_state_player s q

/-- No sequence of ticks moves the player. -/
lemma runTicks_player (s : GameState) (evs : List (Bool × Option Size)) :
    (runTicks s evs).player = s.player := by
  induction evs generalizing s with
  | nil => rfl
  | cons e rest ih =>
      simp only [runTicks, List.foldl_cons]
      simp only [runTicks] at ih
      rw [ih (tick s e.1 e.2), tick_player]

/-- The state after one startup and one dimension-shrinking tick, for
the C9 counterexample: start in a 100-row terminal, then tick with the
query reporting a valid 8-row terminal. -/
def c9Final : Option GameState :=
  (startup (some ⟨100, 100⟩) (fun _ => 0)).map
    (fun s => runTicks s [(true, some ⟨8, 8⟩)])

/-- C9 counterexample: after starting in a `{rows 100, cols 100}`
terminal the player sits at row 50; a subsequent tick that refreshes the
dimensions to the valid size `{rows 8, cols 8}` leaves the player at 50,
outside `[0, 8)` — the claimed invariant fails on reachable states. -/
theorem player_pos_escapes_range :
    c9Final.map (fun s => (s.player.pos, s.size.rows)) = some (50, 8) ∧
    ¬ 50 < 8 := by decide

/-- C9 amended: the player's position is initialized at startup to half
the terminal row count and is never modified by any sequence of ticks;
it therefore stays within `[0, rows)` of the current dimensions exactly
as long as the refreshed row count stays above half the startup row
count (in particular whenever the dimensions never shrink), but it is
not re-clamped when a tick refreshes the dimensions below that. -/
theorem player_pos_amended (q0 : Size) (stream : Nat → Nat)
    (s0 : GameState) (h : startup (some q0) stream = some s0) :
    s0.player.pos = q0.rows / 2 ∧
    ∀ evs, (runTicks s0 evs).player.pos = q0.rows / 2 ∧
      (q0.rows / 2 < (runTicks s0 evs).size.rows →
        (runTicks s0 evs).player.pos < (runTicks s0 evs).size.rows) := by
  have hp : s0.player.pos = q0.rows / 2 := by
    by_cases hsm : q0.cols < 8 ∨ q0.rows < 8
    · simp [startup, evaluate_state_some, hsm] at h
    · simp only [startup, evaluate_state_some, hsm, if_neg] at h
      obtain rfl : _ = s0 := by
        injection h
      simp only [Nat.shiftRight_eq_div_pow, pow_one]
  refine ⟨hp, fun evs => ?_⟩
  have hpe : (runTicks s0 evs).player.pos = q0.rows / 2 := by
    rw [runTicks_player, hp]
  exact ⟨hpe, fun hlt => by rw [hpe]; exact hlt⟩

/-- The concrete startup state behind the C9 witness. -/
def c9S0 : GameState :=
  { size := ⟨100, 100⟩
    enemies := []
    projectiles := []
    falling_stars := List.replicate 4 ⟨0, 1, '*'⟩
    player := ⟨50⟩ }

/-- Witness for C9's amended theorem at a concrete startup. -/
theorem player_pos_amended_witness :
    c9S0.player.pos = 100 / 2 ∧
    (runTicks c9S0 [(true, some ⟨12, 12⟩)]).player.pos = 100 / 2 := by
  have h := player_pos_amended ⟨100, 100⟩ (fun _ => 0) c9S0 (by decide)
  exact ⟨h.1, (h.2 [(true, some ⟨12, 12⟩)]).1⟩

end CLInvaders
